import Mathlib

/-!
Verification development for the pinax-stripe charge lifecycle and
reconciliation engine (src/pinax/stripe/actions/charges.py and
src/pinax/stripe/actions/refunds.py).

Python values are embedded shallowly: decimal amounts become Rat,
processor minor-unit integers become Int, nullable values become Option,
and Python truthiness is made explicit wherever the source branches on it.
Fields of an incoming processor representation that the source reads with
dict.get are modelled with an absent / null / value variant type, so that
an absent key, a present null and a present value stay distinct.
-/

namespace PinaxStripe

/-- Embedding of a dynamically typed Python value where the source performs
an isinstance check or branches on truthiness (validator arguments). -/
inductive PyVal where
  | pnone
  | dec (q : Rat)
  | pint (n : Int)
  | pstr (s : String)
deriving DecidableEq, Repr

/-- Python truthiness of an embedded dynamic value. -/
def PyVal.truthy : PyVal → Bool
  | .pnone => false
  | .dec q => q != 0
  | .pint n => n != 0
  | .pstr s => s != ""

/-- Result of the Python isinstance check against decimal.Decimal. -/
def PyVal.isDecimal : PyVal → Bool
  | .dec _ => true
  | _ => false

/-- Python truthiness of an optional string (None and the empty string are
falsy). -/
def strTruthy : Option String → Bool
  | none => false
  | some s => s != ""

/-- Modelled from the spec: the set of zero-decimal currencies used by the
AmountCodec (utils module is not part of the provided sources). The claims
below never depend on which currencies are in this set. -/
def zero_decimal_currencies : List String :=
  ["bif", "clp", "djf", "gnf", "jpy", "kmf", "krw", "mga",
   "pyg", "rwf", "vnd", "vuv", "xaf", "xof", "xpf"]

/-- Modelled from the spec: the minor-unit factor of a currency (100 for
most currencies, 1 for zero-decimal currencies). -/
def minor_unit_factor (currency : String) : Rat :=
  if currency ∈ zero_decimal_currencies then 1 else 100

/-- Modelled from the spec: AmountCodec.toDecimal, converting the processor
integer minor-unit encoding to a decimal currency amount (utils module
convert_amount_for_db is not part of the provided sources). -/
def convert_amount_for_db (amount : Int) (currency : String) : Rat :=
  (amount : Rat) / minor_unit_factor currency

/-- Modelled from the spec: AmountCodec.toMinorUnits, converting a decimal
currency amount to the processor integer minor-unit encoding (utils module
convert_amount_for_api is not part of the provided sources). -/
def convert_amount_for_api (amount : Rat) (currency : String) : Int :=
  round (amount * minor_unit_factor currency)

/-- Local Account record. Modelled from the spec: the persistence schema is
an external collaborator; only the processor account id is relevant here. -/
structure Account where
  stripe_id : String
deriving DecidableEq, Repr

/-- Local Customer record. Modelled from the spec: a customer optionally
carries a recorded connected-account context (read by the synchronizer via
getattr and by the availability reconciler). -/
structure Customer where
  stripe_id : String
  stripe_account : Option String
deriving DecidableEq, Repr

/-- Local Invoice record, a weak relation target of Charge. -/
structure Invoice where
  stripe_id : String
deriving DecidableEq, Repr

/-- Local Charge record. Modelled from the spec and the migration in
src/pinax/stripe/migrations: monetary fields are decimal values, status
flags are booleans, relations are nullable (stripe_account_hc is the
nullable Account foreign key added by migration 0014). -/
structure Charge where
  stripe_id : String
  customer : Option Customer
  stripe_account_hc : Option Account
  source : String
  currency : String
  invoice : Option Invoice
  amount : Rat
  paid : Bool
  refunded : Bool
  captured : Bool
  disputed : Bool
  charge_created : Option Int
  description : Option String
  amount_refunded : Option Rat
  available : Bool
  available_on : Option Int
  fee : Option Rat
  fee_currency : Option String
  transfer_group : Option String
  outcome : Option String
deriving DecidableEq, Repr

/-- The connected-account id recorded on a charge (model property reading
through the stripe_account_hc relation, as used by capture). -/
def Charge.stripe_account_stripe_id (c : Charge) : Option String :=
  c.stripe_account_hc.map Account.stripe_id

/-- Python expression `x or 0` on a nullable decimal: a falsy value (None
or zero) yields 0, numerically the same as treating absence as zero. -/
def truthyOrZero : Option Rat → Rat
  | none => 0
  | some q => if q = 0 then 0 else q

/-- Source charges.py calculate_refund_amount: eligible = amount minus
(amount_refunded or 0); the requested amount is used, clamped by min,
only when it is truthy. -/
def calculate_refund_amount (charge : Charge) (amount : Option Rat) : Rat :=
  let eligible_to_refund := charge.amount - truthyOrZero charge.amount_refunded
  match amount with
  | some a => if a = 0 then eligible_to_refund else min eligible_to_refund a
  | none => eligible_to_refund

/-- The capture request issued to the processor by charges.py capture
(CaptureCharge in the spec external-interface list). -/
structure CaptureRequest where
  chargeId : String
  stripe_account : Option String
  amount : Int
  idempotency_key : Option String
  expand : List String
deriving DecidableEq, Repr

/-- Outcome of charges.py capture as seen by its caller: the request it
issues and the value the function returns. The source body ends with the
re-sync call and has no return statement, so the Python function returns
None; returned is that final value. -/
structure CaptureOutcome where
  request : CaptureRequest
  returned : Option Charge
deriving Repr

/-- Source charges.py capture: the amount sent is the given amount when it
is truthy, else the charge full amount, converted for the API; the request
targets the charge processor id under the charge recorded connected-account
context; the function returns None. -/
def capture (charge : Charge) (amount : Option Rat) (idempotency_key : Option String) :
    CaptureOutcome :=
  let amt : Rat :=
    match amount with
    | some a => if a = 0 then charge.amount else a
    | none => charge.amount
  { request :=
      { chargeId := charge.stripe_id
        stripe_account := charge.stripe_account_stripe_id
        amount := convert_amount_for_api amt charge.currency
        idempotency_key := idempotency_key
        expand := ["balance_transaction"] }
    returned := none }

/-- Source charges.py _validate_create_params (leading underscore dropped):
the guard clauses in source order, each returning the ValueError message it
raises; Except.ok means validation succeeds. -/
def validate_create_params (customer : Option Customer) (source : Option String)
    (amount : PyVal) (application_fee : PyVal)
    (direct_connect : Option String) (destination_account : Option String)
    (destination_amount : PyVal) (on_behalf_of : Option String) :
    Except String Unit :=
  if ¬ customer.isSome ∧ ¬ strTruthy source then
    .error "Must provide `customer` or `source`."
  else if ¬ amount.isDecimal then
    .error "You must supply a decimal value for `amount`."
  else if application_fee.truthy ∧ ¬ application_fee.isDecimal then
    .error "You must supply a decimal value for `application_fee`."
  else if strTruthy destination_account ∧ strTruthy direct_connect then
    .error "You can only supply a destination account OR a direct account, but not both."
  else if strTruthy direct_connect ∧ application_fee = PyVal.pnone then
    .error "An application fee must be provided when using direct Connect payment. 0 is ok"
  else if strTruthy direct_connect ∧ destination_amount.truthy then
    .error "Destination amount param is for destination mode Connect, not for direct payment mode."
  else if application_fee.truthy ∧ ¬ strTruthy destination_account ∧ ¬ strTruthy direct_connect then
    .error "You can only specify `application_fee` with `destination_account` or `direct_connect`"
  else if application_fee.truthy ∧ strTruthy destination_account ∧ destination_amount.truthy then
    .error "You can't specify `application_fee` with `destination_amount`"
  else if strTruthy destination_account ∧ strTruthy on_behalf_of then
    .error "`destination_account` and `on_behalf_of` are mutualy exclusive"
  else
    .ok ()

/-- A field of an incoming processor representation read through dict.get:
either the key is absent, or it is present with a null value, or it is
present with a value. -/
inductive JField (α : Type) where
  | absent
  | null
  | val (a : α)
deriving DecidableEq, Repr

/-- Nested settlement (balance-transaction) object of a representation. -/
structure BalanceTransaction where
  status : String
  available_on : Option Int
  fee : Int
  currency : String
deriving DecidableEq, Repr

/-- The balance_transaction field of a representation as read by the
source: absent key, null, a bare string reference, or a full object. The
source updates settlement fields only in the full-object case (a string
reference fails the isinstance exclusion, absence and null are falsy). -/
inductive BalanceTxField where
  | absent
  | null
  | ref (s : String)
  | obj (bt : BalanceTransaction)
deriving DecidableEq, Repr

/-- An incoming processor charge representation, with exactly the fields
the source reads. Fields the source subscripts directly are plain (their
key must exist); fields it reads through dict.get are JField or Option. -/
structure ChargeData where
  id : String
  customer : Option String
  source_id : String
  currency : String
  invoice : Option String
  amount : Int
  paid : Bool
  refunded : Bool
  captured : Bool
  dispute : Option String
  created : Option Int
  description : JField String
  amount_refunded : JField Int
  balance_transaction : BalanceTxField
  transfer_group : Option String
  outcome : Option String
deriving DecidableEq, Repr

/-- The local persistence store: tables of Charge, Customer, Invoice and
Account records, an external collaborator in the spec. -/
structure Store where
  charges : List Charge
  customers : List Customer
  invoices : List Invoice
  accounts : List Account
deriving DecidableEq, Repr

/-- Modelled from the spec: the fresh local Charge produced by the created
branch of get_or_create, keyed by the processor charge id, with every
other field at its default (relations and nullable fields absent, flags
false, amount zero); the persistence schema itself is an external
collaborator. -/
def newCharge (sid : String) : Charge :=
  { stripe_id := sid, customer := none, stripe_account_hc := none,
    source := "", currency := "", invoice := none, amount := 0,
    paid := false, refunded := false, captured := false, disputed := false,
    charge_created := none, description := none, amount_refunded := none,
    available := false, available_on := none, fee := none,
    fee_currency := none, transfer_group := none, outcome := none }

/-- Persist a Charge row: replace the first row with the same processor
charge id, or append when none exists (get-or-create followed by save). -/
def saveCharge : List Charge → Charge → List Charge
  | [], obj => [obj]
  | c :: rest, obj =>
    if c.stripe_id == obj.stripe_id then obj :: rest else c :: saveCharge rest obj

/-- Stage of sync_charge_from_stripe_data: get_or_create keyed by the
processor charge id (the found row, or a fresh default row). -/
def sync_lookup_obj (store : Store) (data : ChargeData) : Charge :=
  match store.charges.find? (fun c => c.stripe_id == data.id) with
  | some c => c
  | none => newCharge data.id

/-- Stage of sync_charge_from_stripe_data: best-effort customer lookup by
the representation customer id (filter plus first; absence gives None). -/
def sync_resolve_customer (store : Store) (data : ChargeData) : Option Customer :=
  match data.customer with
  | some cid => store.customers.find? (fun cu => cu.stripe_id == cid)
  | none => none

/-- Stage of sync_charge_from_stripe_data: when the resolved customer has
no recorded connected-account context and a stripe_account was supplied,
Account.objects.get is called, raising DoesNotExist when no such local
record exists; otherwise the stripe_account_hc field keeps its current
value hc0. -/
def sync_resolve_hc (store : Store) (cust : Option Customer)
    (hc0 : Option Account) (stripe_account : Option String) :
    Except String (Option Account) :=
  match stripe_account with
  | some acct =>
    if (match cust with | some cu => cu.stripe_account | none => none) = none then
      match store.accounts.find? (fun a => a.stripe_id == acct) with
      | some a => .ok (some a)
      | none => .error "Account matching query does not exist."
    else .ok hc0
  | none => .ok hc0

/-- Conditional description update of the source: assign the value only
when the dict.get result is truthy (a present nonempty string); an absent
key, a null and an empty string leave the current value in place. -/
def upd_description (d : JField String) (cur : Option String) : Option String :=
  match d with
  | .val s => if s = "" then cur else some s
  | _ => cur

/-- Conditional amount_refunded update of the source: assign the converted
value only when the dict.get result is truthy (a present nonzero integer);
an absent key, a null and a zero leave the current value in place. The
currency used for conversion is the charge currency, already overwritten
with the representation currency at this point in the source. -/
def upd_amount_refunded (d : JField Int) (currency : String) (cur : Option Rat) : Option Rat :=
  match d with
  | .val n => if n = 0 then cur else some (convert_amount_for_db n currency)
  | _ => cur

/-- Settlement update of the source, available field: assigned only from a
full balance-transaction object (a falsy value or a bare string reference
leaves the current value in place). -/
def upd_available (b : BalanceTxField) (cur : Bool) : Bool :=
  match b with
  | .obj bt => bt.status == "available"
  | _ => cur

/-- Settlement update of the source, available_on field. -/
def upd_available_on (b : BalanceTxField) (cur : Option Int) : Option Int :=
  match b with
  | .obj bt => bt.available_on
  | _ => cur

/-- Settlement update of the source, fee field, converted with the
settlement object own currency. -/
def upd_fee (b : BalanceTxField) (cur : Option Rat) : Option Rat :=
  match b with
  | .obj bt => some (convert_amount_for_db bt.fee bt.currency)
  | _ => cur

/-- Settlement update of the source, fee_currency field. -/
def upd_fee_currency (b : BalanceTxField) (cur : Option String) : Option String :=
  match b with
  | .obj bt => some bt.currency
  | _ => cur

/-- Stage of sync_charge_from_stripe_data: the straight-line field
assignments of the source after the account resolution, one record field
per source statement: source id, currency, best-effort invoice lookup,
converted amount, flags, dispute presence, creation timestamp; description
and amount_refunded updated only on a truthy representation value; when
refunded is set, amount_refunded is afterwards forced to the freshly
assigned amount, superseding the conditional update; settlement fields
copied only from a full balance-transaction object; transfer_group and
outcome verbatim. -/
def sync_apply (store : Store) (data : ChargeData) (obj1 : Charge)
    (hc : Option Account) : Charge :=
  let amount_new := convert_amount_for_db data.amount data.currency
  { stripe_id := obj1.stripe_id
    customer := obj1.customer
    stripe_account_hc := hc
    source := data.source_id
    currency := data.currency
    invoice :=
      match data.invoice with
      | some iid => store.invoices.find? (fun inv => inv.stripe_id == iid)
      | none => none
    amount := amount_new
    paid := data.paid
    refunded := data.refunded
    captured := data.captured
    disputed := data.dispute ≠ none
    charge_created := data.created
    description := upd_description data.description obj1.description
    amount_refunded :=
      if data.refunded then some amount_new
      else upd_amount_refunded data.amount_refunded data.currency obj1.amount_refunded
    available := upd_available data.balance_transaction obj1.available
    available_on := upd_available_on data.balance_transaction obj1.available_on
    fee := upd_fee data.balance_transaction obj1.fee
    fee_currency := upd_fee_currency data.balance_transaction obj1.fee_currency
    transfer_group := data.transfer_group
    outcome := data.outcome }

/-- Stage of sync_charge_from_stripe_data: the looked-up or created row
with the resolved customer assigned to it. -/
def sync_obj1 (store : Store) (data : ChargeData) : Charge :=
  { sync_lookup_obj store data with customer := sync_resolve_customer store data }

/-- Source charges.py sync_charge_from_stripe_data: get-or-create by
processor charge id; best-effort customer lookup; account resolution with
its DoesNotExist failure path; the straight-line field updates; persist
and return the updated row. -/
def sync_charge_from_stripe_data (store : Store) (data : ChargeData)
    (stripe_account : Option String) : Except String (Store × Charge) :=
  match sync_resolve_hc store (sync_resolve_customer store data)
      (sync_obj1 store data).stripe_account_hc stripe_account with
  | .error e => .error e
  | .ok hc =>
    .ok ({ store with
            charges := saveCharge store.charges (sync_apply store data (sync_obj1 store data) hc) },
         sync_apply store data (sync_obj1 store data) hc)

/-- A key of the params dict built by refunds.py create. The source dict
literal uses the local variables charge and stripe_account themselves as
keys, so the keys of the built dict are a Charge object and the optional
account value; a genuine string key arises only from the amount entry. -/
inductive RefundParamKey where
  | chargeObj (c : Charge)
  | accountVal (a : Option String)
  | strKey (s : String)
deriving DecidableEq, Repr

/-- A value stored in the params dict built by refunds.py create. -/
inductive RefundParamVal where
  | strVal (s : String)
  | optStrVal (a : Option String)
  | intVal (n : Int)
deriving DecidableEq, Repr

/-- Source refunds.py create, the params dict passed to the processor
refund call: the dict literal binds charge.stripe_id under the key charge
(the Charge object itself, not the string "charge") and stripe_account
under the key stripe_account (the value itself, not the string
"stripe_account"); when an amount is given, the clamped eligible amount is
added under the genuine string key "amount". -/
def refund_create_params (charge : Charge) (amount : Option Rat)
    (stripe_account : Option String) : List (RefundParamKey × RefundParamVal) :=
  let base : List (RefundParamKey × RefundParamVal) :=
    [(RefundParamKey.chargeObj charge, RefundParamVal.strVal charge.stripe_id),
     (RefundParamKey.accountVal stripe_account, RefundParamVal.optStrVal stripe_account)]
  match amount with
  | some a =>
    base ++ [(RefundParamKey.strKey "amount",
              RefundParamVal.intVal
                (convert_amount_for_api (calculate_refund_amount charge (some a)) charge.currency))]
  | none => base

/-- Source charges.py update_charge_availability, the selection: local
charges with paid and captured set, excluding those with available or
refunded set. -/
def update_charge_availability_selected (store : Store) : List Charge :=
  store.charges.filter (fun c => c.paid ∧ c.captured ∧ ¬ (c.available ∨ c.refunded))

/-- Iteration of the availability batch over the selected charges: for
each charge, sync_charge is called with the charge id and with
stripe_account taken from c.customer.stripe_account, the account context
recorded on the related customer; reading it through a None customer
raises AttributeError, the failure path modelled by the error case. -/
def requests_loop : List Charge → Except String (List (String × Option String))
  | [] => .ok []
  | c :: rest =>
    match c.customer with
    | some cu =>
      match requests_loop rest with
      | .ok rs => .ok ((c.stripe_id, cu.stripe_account) :: rs)
      | .error e => .error e
    | none => .error "AttributeError: customer is None"

/-- Source charges.py update_charge_availability, the re-fetch requests
issued for the selected charges, in selection order. -/
def update_charge_availability_requests (store : Store) :
    Except String (List (String × Option String)) :=
  requests_loop (update_charge_availability_selected store)

/-- Discriminator for the keys of the refund params dict: whether a key is
the genuine string key s. -/
def RefundParamKey.isStrKey : RefundParamKey → String → Bool
  | .strKey s, t => s == t
  | _, _ => false

/-! Concrete sample records used by counterexamples and witnesses. -/

/-- An empty local store. -/
def storeEmpty : Store := { charges := [], customers := [], invoices := [], accounts := [] }

/-- A charge of amount 1 with nothing refunded. -/
def chargeC1 : Charge :=
  { stripe_id := "ch_1", customer := none, stripe_account_hc := none,
    source := "card_1", currency := "usd", invoice := none, amount := 1,
    paid := true, refunded := false, captured := true, disputed := false,
    charge_created := none, description := none, amount_refunded := none,
    available := false, available_on := none, fee := none, fee_currency := none,
    transfer_group := none, outcome := none }

/-- A plain local customer with no connected-account context. -/
def custC2 : Customer := { stripe_id := "cus_1", stripe_account := none }

/-! Helper lemmas. -/

/-- The Python expression amount_refunded or 0 agrees numerically with
treating only absence as zero. -/
theorem truthyOrZero_eq_getD (o : Option Rat) : truthyOrZero o = o.getD 0 := by
  cases o with
  | none => rfl
  | some q => by_cases h : q = 0 <;> simp [truthyOrZero, h]

/-- Saving a row makes it the first hit of a lookup by its id. -/
theorem saveCharge_find? (l : List Charge) (obj : Charge) :
    (saveCharge l obj).find? (fun c => c.stripe_id == obj.stripe_id) = some obj := by
  induction l with
  | nil => simp [saveCharge, List.find?]
  | cons c rest ih =>
    by_cases h : (c.stripe_id == obj.stripe_id) = true
    · simp [saveCharge, h, List.find?]
    · simp [saveCharge, h, List.find?, ih]

/-- Saving the same row twice equals saving it once. -/
theorem saveCharge_idem (l : List Charge) (obj : Charge) :
    saveCharge (saveCharge l obj) obj = saveCharge l obj := by
  induction l with
  | nil => simp [saveCharge]
  | cons c rest ih =>
    by_cases h : (c.stripe_id == obj.stripe_id) = true
    · simp [saveCharge, h]
    · simp [saveCharge, h, ih]

/-- In a table holding at most one row with the saved row id, saving
leaves exactly one row with that id. -/
theorem saveCharge_filter_length (l : List Charge) (obj : Charge)
    (hwf : (l.filter (fun c => c.stripe_id == obj.stripe_id)).length ≤ 1) :
    ((saveCharge l obj).filter (fun c => c.stripe_id == obj.stripe_id)).length = 1 := by
  induction l with
  | nil => simp [saveCharge]
  | cons c rest ih =>
    by_cases h : (c.stripe_id == obj.stripe_id) = true
    · have hsv : saveCharge (c :: rest) obj = obj :: rest := by
        simp [saveCharge, h]
      rw [hsv]
      have h1 : (List.filter (fun x => x.stripe_id == obj.stripe_id) (obj :: rest)).length
          = (List.filter (fun x => x.stripe_id == obj.stripe_id) rest).length + 1 := by
        simp [List.filter_cons]
      have h2 : (List.filter (fun x => x.stripe_id == obj.stripe_id) (c :: rest)).length
          = (List.filter (fun x => x.stripe_id == obj.stripe_id) rest).length + 1 := by
        simp [List.filter_cons, h]
      rw [h2] at hwf
      omega
    · have hsv : saveCharge (c :: rest) obj = c :: saveCharge rest obj := by
        simp [saveCharge, h]
      rw [hsv]
      simp only [List.filter_cons, h] at hwf ⊢
      simp only [Bool.false_eq_true, if_false] at hwf ⊢
      exact ih hwf

/-- The looked-up or created row carries the representation charge id. -/
theorem sync_obj1_stripe_id (store : Store) (data : ChargeData) :
    (sync_obj1 store data).stripe_id = data.id := by
  unfold sync_obj1 sync_lookup_obj
  cases hf : store.charges.find? (fun c => c.stripe_id == data.id) with
  | none => simp [newCharge]
  | some c =>
    have hp := List.find?_some hf
    simp only [] at hp
    simpa using eq_of_beq hp

/-- When sync forces amount_refunded: a representation with refunded set
yields a record whose amount_refunded equals its amount. -/
theorem sync_apply_refunded (store : Store) (data : ChargeData) (obj1 : Charge)
    (hc : Option Account) (h : data.refunded = true) :
    (sync_apply store data obj1 hc).amount_refunded =
      some ((sync_apply store data obj1 hc).amount) := by
  simp [sync_apply, h]

/-- The conditional description update is idempotent. -/
theorem upd_description_idem (d : JField String) (cur : Option String) :
    upd_description d (upd_description d cur) = upd_description d cur := by
  cases d with
  | absent => rfl
  | null => rfl
  | val s => by_cases h : s = "" <;> simp [upd_description, h]

/-- The conditional amount_refunded update is idempotent. -/
theorem upd_amount_refunded_idem (d : JField Int) (currency : String) (cur : Option Rat) :
    upd_amount_refunded d currency (upd_amount_refunded d currency cur) =
      upd_amount_refunded d currency cur := by
  cases d with
  | absent => rfl
  | null => rfl
  | val n => by_cases h : n = 0 <;> simp [upd_amount_refunded, h]

/-- Applying the field assignments twice with the same representation
yields the same record as applying them once. -/
theorem sync_apply_idem (store : Store) (data : ChargeData) (obj1 : Charge)
    (hc : Option Account) :
    sync_apply store data (sync_apply store data obj1 hc) hc =
      sync_apply store data obj1 hc := by
  cases hb : data.balance_transaction <;>
  cases hr : data.refunded <;>
    simp [sync_apply, hr, hb, upd_description_idem, upd_amount_refunded_idem,
      upd_available, upd_available_on, upd_fee, upd_fee_currency]

/-- Elimination principle for a successful sync: any property holding of
the generic output (for the resolved account value) holds of the returned
store and charge. -/
theorem sync_ok_elim {store : Store} {data : ChargeData} {acct : Option String}
    {s' : Store} {c : Charge}
    (h : sync_charge_from_stripe_data store data acct = .ok (s', c))
    (P : Store → Charge → Prop)
    (hP : ∀ hc : Option Account,
      sync_resolve_hc store (sync_resolve_customer store data)
        (sync_obj1 store data).stripe_account_hc acct = .ok hc →
      P { store with
            charges := saveCharge store.charges (sync_apply store data (sync_obj1 store data) hc) }
        (sync_apply store data (sync_obj1 store data) hc)) :
    P s' c := by
  unfold sync_charge_from_stripe_data at h
  split at h
  · exact absurd h (by simp)
  · rename_i hc heq
    simp only [Except.ok.injEq, Prod.mk.injEq] at h
    obtain ⟨h1, h2⟩ := h
    subst h1
    subst h2
    exact hP hc heq

/-- A successful account resolution re-run with its own result as the
current value succeeds with the same result. -/
theorem sync_resolve_hc_stable (store : Store) (cust : Option Customer)
    (hc0 hc : Option Account) (acct : Option String)
    (h : sync_resolve_hc store cust hc0 acct = .ok hc) :
    sync_resolve_hc store cust hc acct = .ok hc := by
  cases acct with
  | none =>
    simp [sync_resolve_hc] at h ⊢
  | some a =>
    unfold sync_resolve_hc at h ⊢
    split_ifs at h ⊢ with hcond
    · exact h
    · rfl

/-- Account resolution reads only the accounts table of the store. -/
theorem sync_resolve_hc_store_congr (s t : Store) (cust : Option Customer)
    (hc0 : Option Account) (acct : Option String) (hacc : s.accounts = t.accounts) :
    sync_resolve_hc s cust hc0 acct = sync_resolve_hc t cust hc0 acct := by
  cases acct <;> simp [sync_resolve_hc, hacc]

/-- The field assignments read only the invoices table of the store. -/
theorem sync_apply_store_congr (s t : Store) (data : ChargeData) (obj1 : Charge)
    (hc : Option Account) (hinv : s.invoices = t.invoices) :
    sync_apply s data obj1 hc = sync_apply t data obj1 hc := by
  simp [sync_apply, hinv]

/-- Unfolding a successful sync given its account resolution result. -/
theorem sync_eq_of_resolve (store : Store) (data : ChargeData) (acct : Option String)
    (hc : Option Account)
    (h : sync_resolve_hc store (sync_resolve_customer store data)
        (sync_obj1 store data).stripe_account_hc acct = .ok hc) :
    sync_charge_from_stripe_data store data acct =
      .ok ({ store with
              charges := saveCharge store.charges (sync_apply store data (sync_obj1 store data) hc) },
           sync_apply store data (sync_obj1 store data) hc) := by
  unfold sync_charge_from_stripe_data
  rw [h]

/-!  Claim theorems. -/

/-- C1 (amended): calculateEligibleRefund returns the unrefunded balance
(amount minus amount_refunded, absence counting as zero) when no
requestedAmount is given, and also when the given requestedAmount is zero
(a falsy amount behaves as absent); for a given nonzero requestedAmount it
returns the minimum of the unrefunded balance and the request; in all
cases the result is at most the unrefunded balance. -/
theorem C1_calculate_refund_amount_clamp (charge : Charge) (a : Option Rat) :
    calculate_refund_amount charge a ≤ charge.amount - charge.amount_refunded.getD 0 ∧
    calculate_refund_amount charge none = charge.amount - charge.amount_refunded.getD 0 ∧
    calculate_refund_amount charge (some 0) = charge.amount - charge.amount_refunded.getD 0 ∧
    (∀ q : Rat, q ≠ 0 → calculate_refund_amount charge (some q) =
      min (charge.amount - charge.amount_refunded.getD 0) q) := by
  have ht : truthyOrZero charge.amount_refunded = charge.amount_refunded.getD 0 :=
    truthyOrZero_eq_getD charge.amount_refunded
  refine ⟨?_, ?_, ?_, ?_⟩
  · cases a with
    | none => simp [calculate_refund_amount, ht]
    | some q =>
      by_cases h : q = 0 <;> simp [calculate_refund_amount, ht, h, min_le_left]
  · simp [calculate_refund_amount, ht]
  · simp [calculate_refund_amount, ht]
  · intro q hq
    simp [calculate_refund_amount, ht, hq]

/-- C1 counterexample: for the charge of amount 1 with nothing refunded and
the given requestedAmount 0, the source returns the full unrefunded
balance 1, not min(1, 0) = 0 as the claim states for every given
requestedAmount. -/
theorem C1_requested_zero_cex :
    calculate_refund_amount chargeC1 (some 0) ≠
      min (chargeC1.amount - chargeC1.amount_refunded.getD 0) 0 := by
  simp [calculate_refund_amount, chargeC1, truthyOrZero]

/-- C1 witness: the amended clamping rule evaluated at the concrete charge
of amount 1 and the nonzero requested amount 5. -/
theorem C1_calculate_refund_amount_clamp_witness :
    calculate_refund_amount chargeC1 (some 5) =
      min (chargeC1.amount - chargeC1.amount_refunded.getD 0) 5 :=
  (C1_calculate_refund_amount_clamp chargeC1 (some 5)).2.2.2 5 (by norm_num)

/-- Converting minor units to a decimal amount is monotone for a fixed
currency (the minor-unit factor is positive). -/
theorem convert_amount_for_db_mono (n m : Int) (currency : String) (h : n ≤ m) :
    convert_amount_for_db n currency ≤ convert_amount_for_db m currency := by
  unfold convert_amount_for_db minor_unit_factor
  have hcast : (n : Rat) ≤ (m : Rat) := by exact_mod_cast h
  split_ifs with hz
  · simpa using hcast
  · gcongr

/-- A representation reporting an amount_refunded above the amount, with
refunded unset. -/
def dataC4 : ChargeData :=
  { id := "ch_4", customer := none, source_id := "card_4", currency := "usd",
    invoice := none, amount := 100, paid := true, refunded := false, captured := true,
    dispute := none, created := some 5, description := JField.absent,
    amount_refunded := JField.val 200, balance_transaction := BalanceTxField.absent,
    transfer_group := none, outcome := none }

/-- The record persisted when dataC4 is synced into an empty store. -/
def chargeC4out : Charge :=
  { stripe_id := "ch_4", customer := none, stripe_account_hc := none,
    source := "card_4", currency := "usd", invoice := none,
    amount := convert_amount_for_db 100 "usd", paid := true, refunded := false,
    captured := true, disputed := false, charge_created := some 5,
    description := none, amount_refunded := some (convert_amount_for_db 200 "usd"),
    available := false, available_on := none, fee := none, fee_currency := none,
    transfer_group := none, outcome := none }

/-- A representation like dataC4 but reporting an amount_refunded of 50,
below the amount. -/
def dataC4b : ChargeData :=
  { dataC4 with id := "ch_4b", amount_refunded := JField.val 50 }

/-- The record persisted when dataC4b is synced into an empty store. -/
def chargeC4bout : Charge :=
  { chargeC4out with
    stripe_id := "ch_4b"
    amount_refunded := some (convert_amount_for_db 50 "usd") }

/-- A representation with refunded set and a partial amount_refunded
figure of 50 reported. -/
def dataC5 : ChargeData :=
  { dataC4 with id := "ch_5", refunded := true, amount_refunded := JField.val 50 }

/-- The record persisted when dataC5 is synced into an empty store: the
refunded flag forces amount_refunded to the full amount. -/
def chargeC5out : Charge :=
  { chargeC4out with
    stripe_id := "ch_5"
    refunded := true
    amount_refunded := some (convert_amount_for_db 100 "usd") }

/-- A plain representation with no conditional fields present. -/
def dataC6 : ChargeData :=
  { dataC4 with id := "ch_6", amount_refunded := JField.absent }

/-- The record persisted when dataC6 is synced into an empty store. -/
def chargeC6out : Charge :=
  { chargeC4out with stripe_id := "ch_6", amount_refunded := none }

/-- The store resulting from syncing dataC6 into an empty store. -/
def storeC6out : Store :=
  { charges := [chargeC6out], customers := [], invoices := [], accounts := [] }

/-- C4 (amended): when the representation carries refunded = true the
persisted amount_refunded equals the persisted amount; when refunded is
false the reported figure is persisted as converted, so the invariant
amount_refunded ≤ amount is guaranteed only when the representation
reports a nonzero amount_refunded at most the amount — a larger reported
figure is persisted as-is and violates the bound. -/
theorem C4_sync_invariant_conditional (store : Store) (data : ChargeData)
    (acct : Option String) (s' : Store) (c : Charge)
    (h : sync_charge_from_stripe_data store data acct = .ok (s', c)) :
    (data.refunded = true → c.amount_refunded = some c.amount) ∧
    (∀ n : Int, data.refunded = false → data.amount_refunded = .val n → n ≠ 0 →
      n ≤ data.amount → c.amount_refunded.getD 0 ≤ c.amount) := by
  refine sync_ok_elim h (fun _ c =>
    (data.refunded = true → c.amount_refunded = some c.amount) ∧
    (∀ n : Int, data.refunded = false → data.amount_refunded = .val n → n ≠ 0 →
      n ≤ data.amount → c.amount_refunded.getD 0 ≤ c.amount)) ?_
  intro hc _
  constructor
  · intro hr
    exact sync_apply_refunded store data (sync_obj1 store data) hc hr
  · intro n hr ha hn hle
    have h1 : (sync_apply store data (sync_obj1 store data) hc).amount_refunded
        = some (convert_amount_for_db n data.currency) := by
      simp [sync_apply, hr, ha, upd_amount_refunded, hn]
    have h2 : (sync_apply store data (sync_obj1 store data) hc).amount
        = convert_amount_for_db data.amount data.currency := rfl
    rw [h1, h2]
    simp only [Option.getD_some]
    exact convert_amount_for_db_mono n data.amount data.currency hle

/-- C4 counterexample: syncing a representation with refunded = false,
amount 100 and a reported amount_refunded of 200 persists a record whose
amount_refunded (2.00) exceeds its amount (1.00), violating the claimed
invariant. -/
theorem C4_invariant_violation_cex :
    sync_charge_from_stripe_data storeEmpty dataC4 none =
      .ok ({ storeEmpty with charges := [chargeC4out] }, chargeC4out) ∧
    ¬ (chargeC4out.amount_refunded.getD 0 ≤ chargeC4out.amount) := by
  constructor
  · rfl
  · simp [chargeC4out]
    rw [convert_amount_for_db, convert_amount_for_db, minor_unit_factor, if_neg (by decide)]
    norm_num

/-- C4 witness: the amended conditional invariant evaluated on the
representation dataC4b whose reported figure 50 is below the amount 100. -/
theorem C4_sync_invariant_conditional_witness :
    chargeC4bout.amount_refunded.getD 0 ≤ chargeC4bout.amount :=
  (C4_sync_invariant_conditional storeEmpty dataC4b none
      { storeEmpty with charges := [chargeC4bout] } chargeC4bout rfl).2
    50 rfl rfl (by decide) (by decide)

/-- C5: whenever the representation carries refunded = true, the persisted
amount_refunded equals the persisted amount, regardless of the reported
amount_refunded figure. -/
theorem C5_sync_refunded_forces (store : Store) (data : ChargeData)
    (acct : Option String) (s' : Store) (c : Charge) (hr : data.refunded = true)
    (h : sync_charge_from_stripe_data store data acct = .ok (s', c)) :
    c.amount_refunded = some c.amount := by
  refine sync_ok_elim h (fun _ c => c.amount_refunded = some c.amount) ?_
  intro hc _
  exact sync_apply_refunded store data (sync_obj1 store data) hc hr

/-- C5 witness: the forced consistency evaluated on dataC5, whose reported
partial figure 50 is superseded by the refunded flag. -/
theorem C5_sync_refunded_forces_witness :
    chargeC5out.amount_refunded = some chargeC5out.amount :=
  C5_sync_refunded_forces storeEmpty dataC5 none
    { storeEmpty with charges := [chargeC5out] } chargeC5out rfl rfl

/-- C6: in a store holding at most one row for the representation charge
id, a successful sync followed by a second sync of the identical data
returns the identical store and record — the second call changes no field
and the store holds exactly one row for that charge id. -/
theorem C6_sync_idempotent (store : Store) (data : ChargeData) (acct : Option String)
    (s1 : Store) (c1 : Charge)
    (hwf : (store.charges.filter (fun ch => ch.stripe_id == data.id)).length ≤ 1)
    (h : sync_charge_from_stripe_data store data acct = .ok (s1, c1)) :
    sync_charge_from_stripe_data s1 data acct = .ok (s1, c1) ∧
    (s1.charges.filter (fun ch => ch.stripe_id == data.id)).length = 1 := by
  refine sync_ok_elim h
    (fun s1 c1 => sync_charge_from_stripe_data s1 data acct = .ok (s1, c1) ∧
      (s1.charges.filter (fun ch => ch.stripe_id == data.id)).length = 1) ?_
  intro hc heq
  set objF := sync_apply store data (sync_obj1 store data) hc with hobjF
  set S1 : Store := { store with charges := saveCharge store.charges objF } with hS1
  have hid : objF.stripe_id = data.id := sync_obj1_stripe_id store data
  have hlk : sync_lookup_obj S1 data = objF := by
    unfold sync_lookup_obj
    have hch : S1.charges = saveCharge store.charges objF := rfl
    rw [hch]
    simp only [← hid]
    rw [saveCharge_find?]
  have hcust : sync_resolve_customer S1 data = sync_resolve_customer store data := rfl
  have hobj1 : sync_obj1 S1 data = objF := by
    unfold sync_obj1
    rw [hlk, hcust]
    rfl
  have hres2 : sync_resolve_hc S1 (sync_resolve_customer S1 data)
      (sync_obj1 S1 data).stripe_account_hc acct = .ok hc := by
    rw [hobj1, hcust]
    have hhc : objF.stripe_account_hc = hc := rfl
    rw [hhc]
    rw [sync_resolve_hc_store_congr S1 store (sync_resolve_customer store data) hc acct rfl]
    exact sync_resolve_hc_stable store _ _ hc acct heq
  have happly : sync_apply S1 data (sync_obj1 S1 data) hc = objF := by
    rw [hobj1]
    rw [sync_apply_store_congr S1 store data objF hc rfl]
    exact sync_apply_idem store data (sync_obj1 store data) hc
  constructor
  · rw [sync_eq_of_resolve S1 data acct hc hres2]
    rw [happly]
    have hch : S1.charges = saveCharge store.charges objF := rfl
    rw [hch, saveCharge_idem]
  · have hch : S1.charges = saveCharge store.charges objF := rfl
    rw [hch]
    simp only [← hid]
    apply saveCharge_filter_length
    simp only [← hid] at hwf
    exact hwf

/-- C6 witness: idempotence evaluated on dataC6 synced into an empty
store: the second sync returns the same store and record, and the store
holds exactly one row for the charge id. -/
theorem C6_sync_idempotent_witness :
    sync_charge_from_stripe_data storeC6out dataC6 none = .ok (storeC6out, chargeC6out) ∧
    (storeC6out.charges.filter (fun ch => ch.stripe_id == dataC6.id)).length = 1 :=
  C6_sync_idempotent storeEmpty dataC6 none storeC6out chargeC6out
    (by simp [storeEmpty]) rfl

/-- A pre-existing local charge row with a description and a partial
refund recorded. -/
def chargeC7pre : Charge :=
  { stripe_id := "ch_7", customer := none, stripe_account_hc := none,
    source := "card_old", currency := "usd", invoice := none, amount := 7,
    paid := false, refunded := false, captured := false, disputed := false,
    charge_created := none, description := some "keep me",
    amount_refunded := some (convert_amount_for_db 30 "usd"),
    available := false, available_on := none, fee := none, fee_currency := none,
    transfer_group := none, outcome := none }

/-- A store holding only chargeC7pre. -/
def storeC7 : Store :=
  { charges := [chargeC7pre], customers := [], invoices := [], accounts := [] }

/-- A representation for the same charge id with description and
amount_refunded both absent. -/
def dataC7 : ChargeData :=
  { dataC4 with id := "ch_7", amount_refunded := JField.absent }

/-- The record persisted when dataC7 is synced over chargeC7pre: its
description and amount_refunded are kept. -/
def chargeC7out : Charge :=
  { chargeC4out with
    stripe_id := "ch_7"
    description := some "keep me"
    amount_refunded := some (convert_amount_for_db 30 "usd") }

/-- C7: with a pre-existing local row, description is updated only by a
present nonempty representation value: absent, null and empty leave the
local value unchanged; likewise, with refunded unset, amount_refunded is
updated only by a present nonzero figure, absent and null leaving the
local value unchanged. -/
theorem C7_conditional_updates (store : Store) (data : ChargeData) (acct : Option String)
    (s' : Store) (c cPre : Charge)
    (hfind : store.charges.find? (fun ch => ch.stripe_id == data.id) = some cPre)
    (h : sync_charge_from_stripe_data store data acct = .ok (s', c)) :
    ((data.description = .absent ∨ data.description = .null ∨ data.description = .val "") →
      c.description = cPre.description) ∧
    (∀ s, data.description = .val s → s ≠ "" → c.description = some s) ∧
    (data.refunded = false →
      ((data.amount_refunded = .absent ∨ data.amount_refunded = .null) →
        c.amount_refunded = cPre.amount_refunded) ∧
      (∀ n, data.amount_refunded = .val n → n ≠ 0 →
        c.amount_refunded = some (convert_amount_for_db n data.currency))) := by
  have hdesc : (sync_obj1 store data).description = cPre.description := by
    unfold sync_obj1 sync_lookup_obj
    rw [hfind]
  have har : (sync_obj1 store data).amount_refunded = cPre.amount_refunded := by
    unfold sync_obj1 sync_lookup_obj
    rw [hfind]
  refine sync_ok_elim h (fun _ c =>
    ((data.description = .absent ∨ data.description = .null ∨ data.description = .val "") →
      c.description = cPre.description) ∧
    (∀ s, data.description = .val s → s ≠ "" → c.description = some s) ∧
    (data.refunded = false →
      ((data.amount_refunded = .absent ∨ data.amount_refunded = .null) →
        c.amount_refunded = cPre.amount_refunded) ∧
      (∀ n, data.amount_refunded = .val n → n ≠ 0 →
        c.amount_refunded = some (convert_amount_for_db n data.currency)))) ?_
  intro hc _
  have hpd : (sync_apply store data (sync_obj1 store data) hc).description =
      upd_description data.description (sync_obj1 store data).description := rfl
  refine ⟨?_, ?_, ?_⟩
  · intro hd
    rw [hpd, hdesc]
    rcases hd with h1 | h1 | h1 <;> rw [h1] <;> simp [upd_description]
  · intro s hs hne
    rw [hpd, hs]
    simp [upd_description, hne]
  · intro hr
    have hpa : (sync_apply store data (sync_obj1 store data) hc).amount_refunded =
        upd_amount_refunded data.amount_refunded data.currency
          (sync_obj1 store data).amount_refunded := by
      simp [sync_apply, hr]
    constructor
    · intro ha
      rw [hpa, har]
      rcases ha with h1 | h1 <;> rw [h1] <;> simp [upd_amount_refunded]
    · intro n ha hn
      rw [hpa, ha]
      simp [upd_amount_refunded, hn]

/-- C7 witness: syncing dataC7 (no description, no amount_refunded in the
representation) over the pre-existing row keeps the local description. -/
theorem C7_conditional_updates_witness :
    chargeC7out.description = chargeC7pre.description :=
  (C7_conditional_updates storeC7 dataC7 none
      { storeC7 with charges := [chargeC7out] } chargeC7out chargeC7pre rfl rfl).1
    (Or.inl rfl)

/-- A representation whose customer reference is absent. -/
def dataC8 : ChargeData := { dataC4 with id := "ch_8" }

/-- C8 (amended): with no supplied connected account the sync never
fails; a missing local customer or invoice record leaves the relation
unset; but when a connected account is supplied and the resolved customer
carries no account context, a missing local Account record makes the sync
fail with DoesNotExist instead of completing. -/
theorem C8_sync_relation_tolerance (store : Store) (data : ChargeData) (a : String) :
    ((sync_charge_from_stripe_data store data none).isOk = true) ∧
    (∀ s' c, sync_charge_from_stripe_data store data none = .ok (s', c) →
      (sync_resolve_customer store data = none → c.customer = none) ∧
      (data.invoice.bind
          (fun iid => store.invoices.find? (fun inv => inv.stripe_id == iid)) = none →
        c.invoice = none)) ∧
    ((sync_resolve_customer store data).bind Customer.stripe_account = none →
      store.accounts.find? (fun x => x.stripe_id == a) = none →
      sync_charge_from_stripe_data store data (some a) =
        .error "Account matching query does not exist.") := by
  refine ⟨?_, ?_, ?_⟩
  · rw [sync_eq_of_resolve store data none (sync_obj1 store data).stripe_account_hc rfl]
    rfl
  · intro s' c h
    refine sync_ok_elim h (fun _ c =>
      (sync_resolve_customer store data = none → c.customer = none) ∧
      (data.invoice.bind
          (fun iid => store.invoices.find? (fun inv => inv.stripe_id == iid)) = none →
        c.invoice = none)) ?_
    intro hc _
    constructor
    · intro hcu
      have h1 : (sync_apply store data (sync_obj1 store data) hc).customer =
          (sync_obj1 store data).customer := rfl
      have h2 : (sync_obj1 store data).customer = sync_resolve_customer store data := rfl
      rw [h1, h2, hcu]
    · intro hinv
      have h1 : (sync_apply store data (sync_obj1 store data) hc).invoice =
          (match data.invoice with
           | some iid => store.invoices.find? (fun inv => inv.stripe_id == iid)
           | none => none) := rfl
      rw [h1]
      cases hdi : data.invoice with
      | none => rfl
      | some iid =>
        rw [hdi] at hinv
        simpa using hinv
  · intro hcu hacc
    have hres : sync_resolve_hc store (sync_resolve_customer store data)
        (sync_obj1 store data).stripe_account_hc (some a) =
        .error "Account matching query does not exist." := by
      have hm : (match sync_resolve_customer store data with
                 | some cu => cu.stripe_account
                 | none => none) = none := by
        cases hx : sync_resolve_customer store data with
        | none => rfl
        | some cu =>
          rw [hx] at hcu
          simpa using hcu
      simp only [sync_resolve_hc]
      rw [if_pos hm, hacc]
    unfold sync_charge_from_stripe_data
    rw [hres]

/-- C8 counterexample: syncing with a supplied connected account id and no
matching local Account record does not complete normally: the sync fails,
contradicting the claim that it never fails on missing local records. -/
theorem C8_account_get_raises_cex :
    (sync_charge_from_stripe_data storeEmpty dataC8 (some "acct_9")).isOk = false := rfl

/-- C8 witness: the amended failure clause evaluated on an empty store and
the supplied account id acct_9. -/
theorem C8_sync_relation_tolerance_witness :
    sync_charge_from_stripe_data storeEmpty dataC8 (some "acct_9") =
      .error "Account matching query does not exist." :=
  (C8_sync_relation_tolerance storeEmpty dataC8 "acct_9").2.2 rfl rfl

/-- Iterating over charges whose customer relation is set yields all
re-fetch requests with the customer recorded account context. -/
theorem requests_loop_ok (l : List Charge)
    (hall : ∀ ch ∈ l, ch.customer.isSome = true) :
    requests_loop l =
    .ok (l.map (fun ch => (ch.stripe_id, ch.customer.bind Customer.stripe_account))) := by
  induction l with
  | nil => rfl
  | cons c rest ih =>
    have hcm := hall c (by simp)
    cases hcu : c.customer with
    | none =>
      rw [hcu] at hcm
      simp at hcm
    | some cu =>
      have hrest := ih (fun ch hm => hall ch (by simp [hm]))
      simp [requests_loop, hcu, hrest, Option.bind]

/-- The customer with the account context recorded. -/
def custC9 : Customer := { stripe_id := "cus_9", stripe_account := some "acct_B" }

/-- A paid captured charge, not yet available and not refunded, whose own
recorded connected account differs from the one on its customer. -/
def chargeC9 : Charge :=
  { chargeC4out with
    stripe_id := "ch_9"
    customer := some custC9
    stripe_account_hc := some { stripe_id := "acct_A" } }

/-- A store holding chargeC9, its customer, and both accounts. -/
def storeC9 : Store :=
  { charges := [chargeC9], customers := [custC9], invoices := [],
    accounts := [{ stripe_id := "acct_A" }, { stripe_id := "acct_B" }] }

/-- C9 (amended): the reconciler selects exactly the local charges with
paid and captured set and neither available nor refunded set; for each
selected charge the re-fetch request carries the account context recorded
on the charge related customer (not the one recorded on the charge
itself), and every selected charge must have its customer relation set
for the batch to complete. -/
theorem C9_reconciler_selection_and_context (store : Store) :
    (∀ ch : Charge, ch ∈ update_charge_availability_selected store ↔
      (ch ∈ store.charges ∧ ch.paid = true ∧ ch.captured = true ∧
       ch.available = false ∧ ch.refunded = false)) ∧
    ((∀ ch ∈ update_charge_availability_selected store, ch.customer.isSome = true) →
      update_charge_availability_requests store =
        .ok ((update_charge_availability_selected store).map
          (fun ch => (ch.stripe_id, ch.customer.bind Customer.stripe_account)))) := by
  constructor
  · intro ch
    unfold update_charge_availability_selected
    rw [List.mem_filter]
    constructor
    · rintro ⟨hmem, hpred⟩
      refine ⟨hmem, ?_, ?_, ?_, ?_⟩ <;> simp_all
    · rintro ⟨hmem, h1, h2, h3, h4⟩
      refine ⟨hmem, ?_⟩
      simp [h1, h2, h3, h4]
  · intro hall
    unfold update_charge_availability_requests
    exact requests_loop_ok (update_charge_availability_selected store) hall

/-- C9 counterexample: for the store holding chargeC9, the reconciler
issues the re-fetch with the account recorded on the customer (acct_B),
which differs from the connected account recorded on the charge itself
(acct_A), contradicting the claim that the charge own recorded context is
used. -/
theorem C9_customer_context_cex :
    update_charge_availability_requests storeC9 = .ok [("ch_9", some "acct_B")] ∧
    chargeC9.stripe_account_stripe_id = some "acct_A" ∧
    (some "acct_B" : Option String) ≠ chargeC9.stripe_account_stripe_id := by
  refine ⟨rfl, rfl, ?_⟩
  intro h
  rw [show chargeC9.stripe_account_stripe_id = some "acct_A" from rfl] at h
  simp at h

/-- C9 witness: the amended selection and request shape evaluated on the
concrete store holding chargeC9. -/
theorem C9_reconciler_selection_and_context_witness :
    update_charge_availability_requests storeC9 =
      .ok ((update_charge_availability_selected storeC9).map
        (fun ch => (ch.stripe_id, ch.customer.bind Customer.stripe_account))) :=
  (C9_reconciler_selection_and_context storeC9).2 (by decide)

/-- C2 (amended): at least one of customer and source is required, not
exactly one: validation fails with the must-provide error precisely when
the customer is absent and the source is absent or empty; a tuple carrying
both a customer and a source is not rejected by this rule. -/
theorem C2_must_provide_iff_neither (customer : Option Customer) (source : Option String)
    (amount : PyVal) (application_fee : PyVal)
    (direct_connect : Option String) (destination_account : Option String)
    (destination_amount : PyVal) (on_behalf_of : Option String) :
    (validate_create_params customer source amount application_fee direct_connect
        destination_account destination_amount on_behalf_of =
      .error "Must provide `customer` or `source`.") ↔
      (¬ customer.isSome ∧ ¬ strTruthy source) := by
  unfold validate_create_params
  split_ifs with h1 h2 h3 h4 h5 h6 h7 h8 h9 <;> simp_all

/-- C2 counterexample: a parameter tuple with both a customer and a source
present passes validation, contradicting the claim that such a tuple is
rejected. -/
theorem C2_both_present_accepted_cex :
    validate_create_params (some custC2) (some "card_1") (PyVal.dec 10) PyVal.pnone
      none none PyVal.pnone none = .ok () := by
  rfl

/-- C3: the params dict built by the refund creation path carries no entry
under the string key charge and none under the string key stripe_account:
its first entry is keyed by the Charge object itself (with the processor
charge id as its value) and its second by the connected-account value
itself, so the issued request does not match the CreateRefund shape of the
spec. -/
theorem C3_refund_params_no_string_keys (charge : Charge) (amount : Option Rat)
    (stripe_account : Option String) :
    ((refund_create_params charge amount stripe_account).filter
        (fun kv => kv.1.isStrKey "charge")) = [] ∧
    ((refund_create_params charge amount stripe_account).filter
        (fun kv => kv.1.isStrKey "stripe_account")) = [] ∧
    (refund_create_params charge amount stripe_account).head? =
      some (RefundParamKey.chargeObj charge, RefundParamVal.strVal charge.stripe_id) := by
  cases amount <;>
    simp [refund_create_params, List.filter, RefundParamKey.isStrKey]

/-- C10: giving capture an explicit zero amount issues exactly the request
that an absent amount issues, a capture of the charge full amount, and the
capture operation returns None to its caller rather than the re-synced
charge. -/
theorem C10_capture_zero_amount (charge : Charge) (idempotency_key : Option String) :
    capture charge (some 0) idempotency_key = capture charge none idempotency_key ∧
    (capture charge (some 0) idempotency_key).request.amount =
      convert_amount_for_api charge.amount charge.currency ∧
    (capture charge (some 0) idempotency_key).returned = none := by
  refine ⟨?_, ?_, ?_⟩ <;> simp [capture]

end PinaxStripe
